import Mathlib

set_option maxRecDepth 40000

/-!
Verification development for the `copy-spaces-to-youtube-pipeline` repository:
a browser-based generator mapping a configuration record to a fixed set of five
text artifacts (a CI workflow definition, an ingest shell script, a queue file,
a README and a test workflow).

The template text below is transcribed byte-for-byte from
`src/utils/templates.ts`: each TypeScript template literal is split at its
interpolation points (`$\x7bconfig.<field>\x7d`) into literal segments, and every
generator function is the interleaving of those segments with the configuration
fields, exactly as in the source.  Long segments are written as chains of
string-literal chunks (cut at line boundaries and at the substrings the
theorems talk about); the chain concatenated left to right is the source text.
Braces inside literals are written with the `\x7b`/`\x7d` escapes and tab bytes
present in the source are written `\t`.

The ingest shell scripts are additionally given a behavioural embedding of
their input-resolution stage (`resolveMinimal`, `resolveExtended`), translated
from the script text in `src/utils/templates.ts` and from
`src/scripts/ingest.sh`.
-/

/-- The configuration record, from `src/types.ts` (`PipelineConfig`):
seven plain text fields. -/
structure PipelineConfig where
  repoName : String
  ownerName : String
  podcastTitle : String
  podcastDescription : String
  authorName : String
  email : String
  imageUrl : String
deriving DecidableEq, Repr

/-- `occursIn p s`: `p` occurs as a contiguous substring of `s`. -/
def occursIn (p s : String) : Prop := ∃ x y : String, s = x ++ p ++ y

/-- `hasPrefixL p l`: the character list `p` is a prefix of `l` (boolean). -/
def hasPrefixL : List Char → List Char → Bool
  | [], _ => true
  | _ :: _, [] => false
  | p :: ps, c :: cs => p == c && hasPrefixL ps cs

/-- `isSuffixL t l`: the character list `t` is a suffix of `l` (boolean). -/
def isSuffixL (t : List Char) : List Char → Bool
  | [] => t == ([] : List Char)
  | c :: cs => t == c :: cs || isSuffixL t cs

/-- `containsSubL p l`: `p` occurs as a contiguous sublist of `l` (boolean). -/
def containsSubL (p : List Char) : List Char → Bool
  | [] => hasPrefixL p []
  | c :: cs => hasPrefixL p (c :: cs) || containsSubL p cs

/-- `spanHitB p a b`: some split of `p` into a nonempty prefix and remainder
has the prefix a suffix of `a` and the remainder a prefix of `b`; an occurrence
of `p` straddling the boundary between `a` and a text starting with `b` would
produce such a split. -/
def spanHitB (p a b : List Char) : Bool :=
  (List.range p.length).any fun k =>
    decide (0 < k) && isSuffixL (p.take k) a && hasPrefixL (p.drop k) b

/-- Concatenation of a list of strings, in order. -/
def strJoin : List String → String
  | [] => ""
  | c :: cs => c ++ strJoin cs

/-- Chunk-wise absence certificate: `p` occurs in no chunk, and at no chunk
boundary does a nontrivial split of `p` straddle into the remaining text. -/
def absOKB (p : String) : List String → Bool
  | [] => true
  | [a] => !containsSubL p.data a.data
  | a :: b :: rest =>
    !containsSubL p.data a.data &&
      !spanHitB p.data a.data ((strJoin (b :: rest)).data.take p.data.length) &&
      absOKB p (b :: rest)
/-- `generateIngestYaml` template text before the `podcastTitle` interpolation
point, transcribed byte-for-byte from `src/utils/templates.ts` (the final
`PODCAST_TITLE` marker is appended separately in `ingestYamlPart1`). -/
def ingestYamlPart1Pre : String := "name: Ingest Space\n\non:\n  push:\n    paths:\n      - 'space_queue.txt'\n  workflow_dispatch:\n" ++ "    inputs:\n      space_url:\n" ++ "        description: 'Twitter Space URL (Optional overrides queue file)'\n        required: false\n" ++ "        type: string\n\n# Prevent race conditions during RSS deployment\nconcurrency:\n" ++ "  group: $\x7b\x7b github.workflow \x7d\x7d-$\x7b\x7b github.ref \x7d\x7d\n  cancel-in-progress: false\n\npermissions:\n" ++ "  contents: write\n  pages: write\n  id-token: write\n" ++ "\njobs:\n" ++ "  ingest:\n    runs-on: ubuntu-latest\n    outputs:\n" ++ "      mp3_path: $\x7b\x7b steps.process.outputs.mp3_path \x7d\x7d\n" ++ "      release_tag: $\x7b\x7b steps.process.outputs.release_tag \x7d\x7d\n" ++ "      space_title: $\x7b\x7b steps.process.outputs.space_title \x7d\x7d\n" ++ "      duration: $\x7b\x7b steps.duration.outputs.duration \x7d\x7d\n" ++ "    steps:\n      - name: Checkout\n" ++ "        uses: actions/checkout@11bd71901bbe5b1630ceea73d27597364c9af683 # v4.2.2\n\n" ++ "      - name: Install ffmpeg\n        run: |\n          sudo apt-get update\n" ++ "          sudo apt-get install -y ffmpeg\n\n      - name: Set up Python\n" ++ "        uses: actions/setup-python@42375524e23c412d93fb67b49958b491fce71c38 # v5.4.0\n        with:\n" ++ "          python-version: '3.10'\n          cache: 'pip'\n\n      - name: Install yt-dlp\n" ++ "        run: python3 -m pip install -r requirements.txt\n\n      - name: Run Ingest Script\n" ++ "        id: process\n        env:\n          MANUAL_URL: $\x7b\x7b inputs.space_url \x7d\x7d\n" ++ "        run: bash ./scripts/ingest.sh\n\n      - name: Extract MP3 Duration\n        id: duration\n" ++ "        if: success()\n        run: |\n" ++ "          DURATION=$(ffprobe -v error -show_entries format=duration \\\n" ++ "            -of default=noprint_wrappers=1:nokey=1 \"$\x7b\x7b steps.process.outputs.mp3_path \x7d\x7d\" \\\n" ++ "            | awk '\x7bprintf \"%02d:%02d:%02d\", ($1/3600), ($1%3600/60), ($1%60)\x7d')\n" ++ "          echo \"duration=$DURATION\" >> $GITHUB_OUTPUT\n      \n      - name: Clear Queue File\n" ++ "        if: success() && inputs.space_url == ''\n        run: |\n          echo \"\" > space_queue.txt\n" ++ "          git config --global user.name \"github-actions[bot]\"\n" ++ "          git config --global user.email \"github-actions[bot]@users.noreply.github.com\"\n" ++ "          git commit -am \"chore: clear processed space from queue\" || echo \"No changes to commit\"\n" ++ "          git push\n\n      - name: Create Release\n        if: success()\n" ++ "        uses: softprops/action-gh-release@c95fe1489396fe8a9eb87c0abf8aa5b2ef267fda # v2.2.1\n" ++ "        with:\n          tag_name: $\x7b\x7b steps.process.outputs.release_tag \x7d\x7d\n" ++ "          name: \"$\x7b\x7b steps.process.outputs.space_title \x7d\x7d\"\n" ++ "          files: $\x7b\x7b steps.process.outputs.mp3_path \x7d\x7d\n          body: |\n" ++ "            **Space Title:** $\x7b\x7b steps.process.outputs.space_title \x7d\x7d\n" ++ "            **Duration:** $\x7b\x7b steps.duration.outputs.duration \x7d\x7d\n" ++ "            **Processed:** $\x7b\x7b steps.process.outputs.release_tag \x7d\x7d\n            \n            ---\n" ++ "            METADATA::DURATION::$\x7b\x7b steps.duration.outputs.duration \x7d\x7d\n        env:\n" ++ "          GITHUB_TOKEN: $\x7b\x7b secrets.GITHUB_TOKEN \x7d\x7d\n" ++ "\n  rss:\n    needs: ingest\n    runs-on: ubuntu-latest\n    steps:\n" ++ "      - name: Checkout\n" ++ "        uses: actions/checkout@11bd71901bbe5b1630ceea73d27597364c9af683 # v4.2.2\n      \n" ++ "      - name: Generate RSS Feed\n        env:\n          GH_TOKEN: $\x7b\x7b secrets.GITHUB_TOKEN \x7d\x7d\n" ++ "          REPO: $\x7b\x7b github.repository \x7d\x7d\n"

/-- Template segment of `generateIngestYaml` before the `podcastTitle`
interpolation point. -/
def ingestYamlPart1 : String := ingestYamlPart1Pre ++ "          PODCAST_TITLE: \""

/-- Template segment between the interpolation points, from the source. -/
def ingestYamlPart2 : String := "\"\n" ++ "          PODCAST_DESC: \""

/-- Template segment between the interpolation points, from the source. -/
def ingestYamlPart3 : String := "\"\n" ++ "          PODCAST_AUTHOR: \""

/-- Template segment between the interpolation points, from the source. -/
def ingestYamlPart4 : String := "\"\n" ++ "          PODCAST_EMAIL: \""

/-- Template segment between the interpolation points, from the source. -/
def ingestYamlPart5 : String := "\"\n" ++ "          PODCAST_IMAGE: \""

/-- `generateIngestYaml` template text after the `imageUrl` interpolation point
and its closing quote, from the source. -/
def ingestYamlPart6Tail : String := "          BASE_URL: \"https://github.com/$\x7b\x7b github.repository \x7d\x7d/releases/download\"\n        run: |\n" ++ "          cat <<'EOF' > generate_rss.py\n          import os\n          import json\n" ++ "          import re\n          import urllib.request\n          from datetime import datetime\n" ++ "          from xml.sax.saxutils import escape\n\n          # Configuration\n" ++ "          repo = os.environ['REPO']\n          token = os.environ['GH_TOKEN']\n" ++ "          title = os.environ.get('PODCAST_TITLE', 'Twitter Spaces Archive')\n" ++ "          desc = os.environ.get('PODCAST_DESC', 'Archive of Twitter Spaces')\n" ++ "          author = os.environ.get('PODCAST_AUTHOR', 'Logan Black')\n" ++ "          email = os.environ.get('PODCAST_EMAIL', 'loganblack0@gmail.com')\n" ++ "          image_fallback = os.environ.get('PODCAST_IMAGE', 'https://picsum.photos/1400/1400')\n" ++ "          \n" ++ "          github_pages_url = f\"https://\x7brepo.split('/')[0]\x7d.github.io/\x7brepo.split('/')[1]\x7d/\"\n" ++ "          rss_url = f\"\x7bgithub_pages_url\x7dpodcast.xml\"\n\n" ++ "          # Artwork Logic: Use local artwork.jpg if exists, else fallback\n" ++ "          if os.path.exists('artwork.jpg'):\n              image = f\"\x7bgithub_pages_url\x7dartwork.jpg\"\n" ++ "          else:\n              image = image_fallback\n\n" ++ "          print(f\"Fetching releases for \x7brepo\x7d...\")\n\n" ++ "          req = urllib.request.Request(f\"https://api.github.com/repos/\x7brepo\x7d/releases\")\n" ++ "          req.add_header('Authorization', f'token \x7btoken\x7d')\n" ++ "          req.add_header('Accept', 'application/vnd.github.v3+json')\n\n          try:\n" ++ "              with urllib.request.urlopen(req) as response:\n" ++ "                  releases = json.loads(response.read())\n          except Exception as e:\n" ++ "              print(f\"Failed to fetch releases: \x7be\x7d\")\n              exit(1)\n\n" ++ "          rss_items = []\n\n          for release in releases:\n" ++ "              if release.get('draft') or release.get('prerelease'):\n                  continue\n" ++ "              \n              pub_date_str = release.get('published_at') # ISO 8601\n" ++ "              dt = datetime.strptime(pub_date_str, \"%Y-%m-%dT%H:%M:%SZ\")\n" ++ "              rfc822_date = dt.strftime(\"%a, %d %b %Y %H:%M:%S GMT\")\n              \n" ++ "              # Extract duration from body metadata\n              body = release.get('body', '')\n" ++ "              duration_match = re.search(r'METADATA::DURATION::(\\d\x7b2\x7d:\\d\x7b2\x7d:\\d\x7b2\x7d)', body)\n" ++ "              duration = duration_match.group(1) if duration_match else \"00:00:00\"\n\n" ++ "              for asset in release.get('assets', []):\n" ++ "                  if asset['name'].endswith('.mp3'):\n" ++ "                      file_url = asset['browser_download_url']\n" ++ "                      file_size = asset['size']\n                      guid = str(asset['id'])\n" ++ "                      item_title = escape(release.get('name', 'Untitled Space'))\n" ++ "                      \n                      rss_items.append(f\"\"\"\n              <item>\n" ++ "                <title>\x7bitem_title\x7d</title>\n" ++ "                <description>\x7bitem_title\x7d - Twitter Space Replay</description>\n" ++ "                <pubDate>\x7brfc822_date\x7d</pubDate>\n" ++ "                <enclosure url=\"\x7bfile_url\x7d\" length=\"\x7bfile_size\x7d\" type=\"audio/mpeg\"/>\n" ++ "                <guid isPermaLink=\"false\">\x7bguid\x7d</guid>\n" ++ "                <itunes:duration>\x7bduration\x7d</itunes:duration>\n" ++ "                <itunes:explicit>no</itunes:explicit>\n              </item>\"\"\")\n\n" ++ "          # Last Build Date\n" ++ "          last_build_date = datetime.now().strftime(\"%a, %d %b %Y %H:%M:%S GMT\")\n\n" ++ "          rss_content = f\"\"\"<?xml version=\"1.0\" encoding=\"UTF-8\"?>\n          <rss version=\"2.0\" \n" ++ "               xmlns:itunes=\"http://www.itunes.com/dtds/podcast-1.0.dtd\" \n" ++ "               xmlns:googleplay=\"http://www.google.com/schemas/play-podcasts/1.0\"\n" ++ "               xmlns:podcast=\"https://podcastindex.org/namespace/1.0\"\n" ++ "               xmlns:atom=\"http://www.w3.org/2005/Atom\">\n            <channel>\n" ++ "              <title>\x7bescape(title)\x7d</title>\n              <link>\x7bgithub_pages_url\x7d</link>\n" ++ "              <description>\x7bescape(desc)\x7d</description>\n              <language>en-us</language>\n" ++ "              <lastBuildDate>\x7blast_build_date\x7d</lastBuildDate>\n" ++ "              <atom:link href=\"\x7brss_url\x7d\" rel=\"self\" type=\"application/rss+xml\" />\n" ++ "              <itunes:author>\x7bescape(author)\x7d</itunes:author>\n              <itunes:owner>\n" ++ "                <itunes:name>\x7bescape(author)\x7d</itunes:name>\n" ++ "                <itunes:email>\x7bescape(email)\x7d</itunes:email>\n              </itunes:owner>\n" ++ "              <itunes:image href=\"\x7bimage\x7d\"/>\n              <image>\n" ++ "                <url>\x7bimage\x7d</url>\n                <title>\x7bescape(title)\x7d</title>\n" ++ "                <link>\x7bgithub_pages_url\x7d</link>\n              </image>\n" ++ "              <itunes:category text=\"Technology\"/>\n" ++ "              <itunes:explicit>no</itunes:explicit>\n              \x7b''.join(rss_items)\x7d\n" ++ "            </channel>\n          </rss>\"\"\"\n\n          with open('podcast.xml', 'w') as f:\n" ++ "              f.write(rss_content)\n              \n" ++ "          print(\"Successfully generated podcast.xml\")\n          EOF\n" ++ "          python3 generate_rss.py\n\n      - name: Validate RSS\n        run: |\n" ++ "          if ! grep -q '<rss version=\"2.0\"' podcast.xml; then\n" ++ "            echo \"❌ Invalid RSS structure\"\n            exit 1\n          fi\n" ++ "          echo \"✅ RSS validation passed\"\n\n      - name: Upload Pages Artifact\n" ++ "        uses: actions/upload-pages-artifact@v3\n        with:\n          path: .\n" ++ "          # Only include necessary files for deployment\n" ++ "          # This ensures tarball doesn't include source code junk\n" ++ "          # Note: pattern matching doesn't work well here, so we rely on path: .\n" ++ "          # and the fact that we've generated podcast.xml in root.\n\n" ++ "      - name: Deploy to GitHub Pages\n        id: deployment\n        uses: actions/deploy-pages@v4\n"

/-- Template segment after the `imageUrl` interpolation point. -/
def ingestYamlPart6 : String := "\"\n" ++ ingestYamlPart6Tail

/-- The fixed ingest shell script text produced by `generateIngestScript` in
`src/utils/templates.ts`, transcribed byte-for-byte. -/
def ingestScriptText : String := "#!/bin/bash\nset -euo pipefail\n\n" ++ "# =========\x3d=========\x3d=========\x3d=========\x3d=========\x3d=========\x3d=========\x3d========\n" ++ "# TWITTER SPACE INGEST SCRIPT\n" ++ "# =========\x3d=========\x3d=========\x3d=========\x3d=========\x3d=========\x3d=========\x3d========\n\n" ++ "QUEUE_FILE=\"space_queue.txt\"\nWORK_DIR=\"work\"\nTARGET_URL=\"\"\n\n# 1. Determine Input Source\n" ++ "# Priority: Environment Variable (Manual Run) > Queue File\nif [[ -n \"\tMANUAL_URL:-\" ]]; then\n" ++ "    echo \"Using Manual URL from Workflow Input\"\n    TARGET_URL=\"$MANUAL_URL\"\nelse\n" ++ "    if [[ ! -f \"$QUEUE_FILE\" ]]; then\n        echo \"::error::Queue file $QUEUE_FILE not found!\"\n" ++ "        exit 1\n    fi\n    # Read first non-empty line\n" ++ "    TARGET_URL=$(grep -v '^[[:space:]]*$' \"$QUEUE_FILE\" | head -n 1 | tr -d '[:space:]')\nfi\n\n" ++ "# 2. Validate URL\nif [[ -z \"$TARGET_URL\" ]]; then\n" ++ "    echo \"::error::No URL found in input or queue file!\"\n    exit 1\nfi\n\n" ++ "echo \"Processing URL: $TARGET_URL\"\n\n# 3. Prepare Work Directory\nmkdir -p \"$WORK_DIR\"\n\n" ++ "# 4. Download and Convert\necho \"Starting download...\"\n\nyt-dlp \\\n    --retries 3 \\\n" ++ "    --fragment-retries 3 \\\n    --no-playlist \\\n    --restrict-filenames \\\n    --extract-audio \\\n" ++ "    --audio-format mp3 \\\n    --audio-quality 0 \\\n    --embed-metadata \\\n    --embed-thumbnail \\\n" ++ "    --output \"$WORK_DIR/%(upload_date)s_%(id)s_%(title)s.%(ext)s\" \\\n    \"$TARGET_URL\"\n\n" ++ "# 5. Verify Output\nMP3_FILE=$(find \"$WORK_DIR\" -name \"*.mp3\" | head -n 1)\n\n" ++ "if [[ -z \"$MP3_FILE\" ]]; then\n    echo \"::error::No MP3 file was generated.\"\n    exit 1\nfi\n\n" ++ "echo \"Successfully created: $MP3_FILE\"\n\n# 6. Extract Metadata for GitHub Actions\n" ++ "BASENAME=$(basename \"$MP3_FILE\" .mp3)\n# Format: YYYYMMDD_UNIXTIMESTAMP\n" ++ "RELEASE_TAG=\"\t$\x7bBASENAME:0:8\x7d_\t$(date +%s)\"\n# Clean title heuristic\nSPACE_TITLE=\"\t$\x7bBASENAME:20\x7d\" \n" ++ "if [[ -z \"$SPACE_TITLE\" ]]; then SPACE_TITLE=\"$BASENAME\"; fi\n\n# 7. Set GitHub Output Variables\n" ++ "if [[ -n \"\tGITHUB_OUTPUT:-\" ]]; then\n    echo \"mp3_path=$MP3_FILE\" >> \"$GITHUB_OUTPUT\"\n" ++ "    echo \"release_tag=$RELEASE_TAG\" >> \"$GITHUB_OUTPUT\"\n" ++ "    echo \"space_title=$SPACE_TITLE\" >> \"$GITHUB_OUTPUT\"\nfi\n\necho \"Done.\"\n"

/-- First README template segment (before the `podcastTitle` interpolation). -/
def readmePart1 : String := "# "

/-- README text strictly between the heading suffix and the feed URL scheme. -/
def readmePart2Mid : String := "\nAutomated ingestion pipeline for Twitter Spaces.\n\n## How to Use\n\n" ++ "### Option A: Quick Run (Recommended)\n1. Go to the **Actions** tab in your repository.\n" ++ "2. Select **Ingest Space**.\n3. Click **Run workflow**.\n" ++ "4. Paste the Twitter Space URL in the input box.\n\n### Option B: Queue File\n" ++ "1. Paste a URL into \tspace_queue.txt\t.\n2. Commit and push the change.\n" ++ "3. The pipeline will process it and clear the file automatically.\n\n## RSS Feed\n\n" ++ "Your podcast feed is available at:\n\t"

/-- README template segment between the `podcastTitle` and `ownerName`
interpolation points. -/
def readmePart2 : String := " Pipeline\n" ++ readmePart2Mid ++ "https://"

/-- README template segment between the `ownerName` and `repoName`
interpolation points. -/
def readmePart3 : String := ".github.io/"

/-- README text after the feed URL line. -/
def readmePart4Tail : String := "\nSubmit this URL to YouTube Podcast ingestion.\n\n## Directory Structure\n\n\t```\n\t/\n\t├─ .github/\n" ++ "\t│  └─ workflows/\n\t│     ├─ ingest.yml      # Main pipeline logic\n" ++ "\t│     └─ test_audio.yml  # (Optional) Audio checks\n\t├─ scripts/\n" ++ "\t│  └─ ingest.sh         # Download & Process script\n\t├─ space_queue.txt      # Input queue\n" ++ "\t└─ README.md\n\t```\n\n## Configuration\n\n" ++ "Update \t.github/workflows/ingest.yml\t environment variables to change podcast metadata (Title, Author, Image).\n"

/-- README template segment after the `repoName` interpolation point. -/
def readmePart4 : String := "/podcast.xml\n" ++ readmePart4Tail

/-- The fixed queue-file text produced by `generateQueueFile`. -/
def queueFileText : String := "https://twitter.com/i/spaces/1DXxyvjZpZQKM\n"

/-- The fixed test-workflow text produced by `generateTestAudioYaml`. -/
def testAudioYamlText : String := "name: Test Audio Tools\n\non: [workflow_dispatch]\n\njobs:\n  test-env:\n    runs-on: ubuntu-latest\n" ++ "    steps:\n      - uses: actions/checkout@11bd71901bbe5b1630ceea73d27597364c9af683 # v4.2.2\n" ++ "      - name: Check ffmpeg\n        run: ffmpeg -version\n      - name: Check yt-dlp\n        run: |\n" ++ "          python3 -m pip install yt-dlp\n          yt-dlp --version\n"

/-- The atoms of the workflow text at `DEFAULT_CONFIG`, in order: the chunk
literals of the template segments interleaved with the default field values.
Used by the substring-absence scan. -/
def yamlDefaultAtoms : List String := ["name: Ingest Space\n\non:\n  push:\n    paths:\n      - 'space_queue.txt'\n  workflow_dispatch:\n", "    inputs:\n      space_url:\n", "        description: 'Twitter Space URL (Optional overrides queue file)'\n        required: false\n", "        type: string\n\n# Prevent race conditions during RSS deployment\nconcurrency:\n", "  group: $\x7b\x7b github.workflow \x7d\x7d-$\x7b\x7b github.ref \x7d\x7d\n  cancel-in-progress: false\n\npermissions:\n", "  contents: write\n  pages: write\n  id-token: write\n", "\njobs:\n", "  ingest:\n    runs-on: ubuntu-latest\n    outputs:\n", "      mp3_path: $\x7b\x7b steps.process.outputs.mp3_path \x7d\x7d\n", "      release_tag: $\x7b\x7b steps.process.outputs.release_tag \x7d\x7d\n", "      space_title: $\x7b\x7b steps.process.outputs.space_title \x7d\x7d\n", "      duration: $\x7b\x7b steps.duration.outputs.duration \x7d\x7d\n", "    steps:\n      - name: Checkout\n", "        uses: actions/checkout@11bd71901bbe5b1630ceea73d27597364c9af683 # v4.2.2\n\n", "      - name: Install ffmpeg\n        run: |\n          sudo apt-get update\n", "          sudo apt-get install -y ffmpeg\n\n      - name: Set up Python\n", "        uses: actions/setup-python@42375524e23c412d93fb67b49958b491fce71c38 # v5.4.0\n        with:\n", "          python-version: '3.10'\n          cache: 'pip'\n\n      - name: Install yt-dlp\n", "        run: python3 -m pip install -r requirements.txt\n\n      - name: Run Ingest Script\n", "        id: process\n        env:\n          MANUAL_URL: $\x7b\x7b inputs.space_url \x7d\x7d\n", "        run: bash ./scripts/ingest.sh\n\n      - name: Extract MP3 Duration\n        id: duration\n", "        if: success()\n        run: |\n", "          DURATION=$(ffprobe -v error -show_entries format=duration \\\n", "            -of default=noprint_wrappers=1:nokey=1 \"$\x7b\x7b steps.process.outputs.mp3_path \x7d\x7d\" \\\n", "            | awk '\x7bprintf \"%02d:%02d:%02d\", ($1/3600), ($1%3600/60), ($1%60)\x7d')\n", "          echo \"duration=$DURATION\" >> $GITHUB_OUTPUT\n      \n      - name: Clear Queue File\n", "        if: success() && inputs.space_url == ''\n        run: |\n          echo \"\" > space_queue.txt\n", "          git config --global user.name \"github-actions[bot]\"\n", "          git config --global user.email \"github-actions[bot]@users.noreply.github.com\"\n", "          git commit -am \"chore: clear processed space from queue\" || echo \"No changes to commit\"\n", "          git push\n\n      - name: Create Release\n        if: success()\n", "        uses: softprops/action-gh-release@c95fe1489396fe8a9eb87c0abf8aa5b2ef267fda # v2.2.1\n", "        with:\n          tag_name: $\x7b\x7b steps.process.outputs.release_tag \x7d\x7d\n", "          name: \"$\x7b\x7b steps.process.outputs.space_title \x7d\x7d\"\n", "          files: $\x7b\x7b steps.process.outputs.mp3_path \x7d\x7d\n          body: |\n", "            **Space Title:** $\x7b\x7b steps.process.outputs.space_title \x7d\x7d\n", "            **Duration:** $\x7b\x7b steps.duration.outputs.duration \x7d\x7d\n", "            **Processed:** $\x7b\x7b steps.process.outputs.release_tag \x7d\x7d\n            \n            ---\n", "            METADATA::DURATION::$\x7b\x7b steps.duration.outputs.duration \x7d\x7d\n        env:\n", "          GITHUB_TOKEN: $\x7b\x7b secrets.GITHUB_TOKEN \x7d\x7d\n", "\n  rss:\n    needs: ingest\n    runs-on: ubuntu-latest\n    steps:\n", "      - name: Checkout\n", "        uses: actions/checkout@11bd71901bbe5b1630ceea73d27597364c9af683 # v4.2.2\n      \n", "      - name: Generate RSS Feed\n        env:\n          GH_TOKEN: $\x7b\x7b secrets.GITHUB_TOKEN \x7d\x7d\n", "          REPO: $\x7b\x7b github.repository \x7d\x7d\n", "          PODCAST_TITLE: \"", "My Spaces Archive", "\"\n", "          PODCAST_DESC: \"", "An automated archive of Twitter Spaces.", "\"\n", "          PODCAST_AUTHOR: \"", "Logan Black", "\"\n", "          PODCAST_EMAIL: \"", "loganblack0@gmail.com", "\"\n", "          PODCAST_IMAGE: \"", "https://picsum.photos/1400/1400", "\"\n", "          BASE_URL: \"https://github.com/$\x7b\x7b github.repository \x7d\x7d/releases/download\"\n        run: |\n", "          cat <<'EOF' > generate_rss.py\n          import os\n          import json\n", "          import re\n          import urllib.request\n          from datetime import datetime\n", "          from xml.sax.saxutils import escape\n\n          # Configuration\n", "          repo = os.environ['REPO']\n          token = os.environ['GH_TOKEN']\n", "          title = os.environ.get('PODCAST_TITLE', 'Twitter Spaces Archive')\n", "          desc = os.environ.get('PODCAST_DESC', 'Archive of Twitter Spaces')\n", "          author = os.environ.get('PODCAST_AUTHOR', 'Logan Black')\n", "          email = os.environ.get('PODCAST_EMAIL', 'loganblack0@gmail.com')\n", "          image_fallback = os.environ.get('PODCAST_IMAGE', 'https://picsum.photos/1400/1400')\n", "          \n", "          github_pages_url = f\"https://\x7brepo.split('/')[0]\x7d.github.io/\x7brepo.split('/')[1]\x7d/\"\n", "          rss_url = f\"\x7bgithub_pages_url\x7dpodcast.xml\"\n\n", "          # Artwork Logic: Use local artwork.jpg if exists, else fallback\n", "          if os.path.exists('artwork.jpg'):\n              image = f\"\x7bgithub_pages_url\x7dartwork.jpg\"\n", "          else:\n              image = image_fallback\n\n", "          print(f\"Fetching releases for \x7brepo\x7d...\")\n\n", "          req = urllib.request.Request(f\"https://api.github.com/repos/\x7brepo\x7d/releases\")\n", "          req.add_header('Authorization', f'token \x7btoken\x7d')\n", "          req.add_header('Accept', 'application/vnd.github.v3+json')\n\n          try:\n", "              with urllib.request.urlopen(req) as response:\n", "                  releases = json.loads(response.read())\n          except Exception as e:\n", "              print(f\"Failed to fetch releases: \x7be\x7d\")\n              exit(1)\n\n", "          rss_items = []\n\n          for release in releases:\n", "              if release.get('draft') or release.get('prerelease'):\n                  continue\n", "              \n              pub_date_str = release.get('published_at') # ISO 8601\n", "              dt = datetime.strptime(pub_date_str, \"%Y-%m-%dT%H:%M:%SZ\")\n", "              rfc822_date = dt.strftime(\"%a, %d %b %Y %H:%M:%S GMT\")\n              \n", "              # Extract duration from body metadata\n              body = release.get('body', '')\n", "              duration_match = re.search(r'METADATA::DURATION::(\\d\x7b2\x7d:\\d\x7b2\x7d:\\d\x7b2\x7d)', body)\n", "              duration = duration_match.group(1) if duration_match else \"00:00:00\"\n\n", "              for asset in release.get('assets', []):\n", "                  if asset['name'].endswith('.mp3'):\n", "                      file_url = asset['browser_download_url']\n", "                      file_size = asset['size']\n                      guid = str(asset['id'])\n", "                      item_title = escape(release.get('name', 'Untitled Space'))\n", "                      \n                      rss_items.append(f\"\"\"\n              <item>\n", "                <title>\x7bitem_title\x7d</title>\n", "                <description>\x7bitem_title\x7d - Twitter Space Replay</description>\n", "                <pubDate>\x7brfc822_date\x7d</pubDate>\n", "                <enclosure url=\"\x7bfile_url\x7d\" length=\"\x7bfile_size\x7d\" type=\"audio/mpeg\"/>\n", "                <guid isPermaLink=\"false\">\x7bguid\x7d</guid>\n", "                <itunes:duration>\x7bduration\x7d</itunes:duration>\n", "                <itunes:explicit>no</itunes:explicit>\n              </item>\"\"\")\n\n", "          # Last Build Date\n", "          last_build_date = datetime.now().strftime(\"%a, %d %b %Y %H:%M:%S GMT\")\n\n", "          rss_content = f\"\"\"<?xml version=\"1.0\" encoding=\"UTF-8\"?>\n          <rss version=\"2.0\" \n", "               xmlns:itunes=\"http://www.itunes.com/dtds/podcast-1.0.dtd\" \n", "               xmlns:googleplay=\"http://www.google.com/schemas/play-podcasts/1.0\"\n", "               xmlns:podcast=\"https://podcastindex.org/namespace/1.0\"\n", "               xmlns:atom=\"http://www.w3.org/2005/Atom\">\n            <channel>\n", "              <title>\x7bescape(title)\x7d</title>\n              <link>\x7bgithub_pages_url\x7d</link>\n", "              <description>\x7bescape(desc)\x7d</description>\n              <language>en-us</language>\n", "              <lastBuildDate>\x7blast_build_date\x7d</lastBuildDate>\n", "              <atom:link href=\"\x7brss_url\x7d\" rel=\"self\" type=\"application/rss+xml\" />\n", "              <itunes:author>\x7bescape(author)\x7d</itunes:author>\n              <itunes:owner>\n", "                <itunes:name>\x7bescape(author)\x7d</itunes:name>\n", "                <itunes:email>\x7bescape(email)\x7d</itunes:email>\n              </itunes:owner>\n", "              <itunes:image href=\"\x7bimage\x7d\"/>\n              <image>\n", "                <url>\x7bimage\x7d</url>\n                <title>\x7bescape(title)\x7d</title>\n", "                <link>\x7bgithub_pages_url\x7d</link>\n              </image>\n", "              <itunes:category text=\"Technology\"/>\n", "              <itunes:explicit>no</itunes:explicit>\n              \x7b''.join(rss_items)\x7d\n", "            </channel>\n          </rss>\"\"\"\n\n          with open('podcast.xml', 'w') as f:\n", "              f.write(rss_content)\n              \n", "          print(\"Successfully generated podcast.xml\")\n          EOF\n", "          python3 generate_rss.py\n\n      - name: Validate RSS\n        run: |\n", "          if ! grep -q '<rss version=\"2.0\"' podcast.xml; then\n", "            echo \"❌ Invalid RSS structure\"\n            exit 1\n          fi\n", "          echo \"✅ RSS validation passed\"\n\n      - name: Upload Pages Artifact\n", "        uses: actions/upload-pages-artifact@v3\n        with:\n          path: .\n", "          # Only include necessary files for deployment\n", "          # This ensures tarball doesn't include source code junk\n", "          # Note: pattern matching doesn't work well here, so we rely on path: .\n", "          # and the fact that we've generated podcast.xml in root.\n\n", "      - name: Deploy to GitHub Pages\n        id: deployment\n        uses: actions/deploy-pages@v4\n"]

/-- Workflow-definition generator, from `src/utils/templates.ts`
(`generateIngestYaml`): the template interpolates exactly the five podcast
metadata fields, in this order, and nothing else. -/
def generateIngestYaml (config : PipelineConfig) : String :=
  ingestYamlPart1 ++ config.podcastTitle ++ ingestYamlPart2 ++
    config.podcastDescription ++ ingestYamlPart3 ++ config.authorName ++
    ingestYamlPart4 ++ config.email ++ ingestYamlPart5 ++ config.imageUrl ++
    ingestYamlPart6

/-- Shell-script generator, from `src/utils/templates.ts`
(`generateIngestScript`): a zero-argument arrow function returning fixed text;
no configuration field is interpolated. -/
def generateIngestScript : String := ingestScriptText

/-- Documentation generator, from `src/utils/templates.ts` (`generateReadme`):
interpolates `podcastTitle`, `ownerName` and `repoName`. -/
def generateReadme (config : PipelineConfig) : String :=
  readmePart1 ++ config.podcastTitle ++ readmePart2 ++ config.ownerName ++
    readmePart3 ++ config.repoName ++ readmePart4

/-- Queue-file generator, from `src/utils/templates.ts` (`generateQueueFile`):
a fixed sample URL line. -/
def generateQueueFile : String := queueFileText

/-- Test-workflow generator, from `src/utils/templates.ts`
(`generateTestAudioYaml`): fixed text. -/
def generateTestAudioYaml : String := testAudioYamlText

/-- The suffix of the workflow text after the interpolated title: everything
the workflow-definition output contains beyond `ingestYamlPart1 ++ title`. -/
def ingestYamlTitleTail (config : PipelineConfig) : String :=
  ingestYamlPart2 ++ config.podcastDescription ++ ingestYamlPart3 ++
    config.authorName ++ ingestYamlPart4 ++ config.email ++ ingestYamlPart5 ++
    config.imageUrl ++ ingestYamlPart6

/-- The suffix of the README text after the interpolated title. -/
def readmeTitleTail (config : PipelineConfig) : String :=
  readmePart2 ++ config.ownerName ++ readmePart3 ++ config.repoName ++
    readmePart4

/-- The sample configuration constructed at session start, from `DEFAULT_CONFIG`
in `src/unnamed/part_000`. -/
def DEFAULT_CONFIG : PipelineConfig :=
  { repoName := "copy-spaces-to-youtube-pipeline",
    ownerName := "aiandbotsgalore",
    podcastTitle := "My Spaces Archive",
    podcastDescription := "An automated archive of Twitter Spaces.",
    authorName := "Logan Black",
    email := "loganblack0@gmail.com",
    imageUrl := "https://picsum.photos/1400/1400" }

/-- The configuration state held at session start: `App` initialises its state
with `useState(DEFAULT_CONFIG)` in `src/unnamed/part_000`. -/
def sessionInitialConfig : PipelineConfig := DEFAULT_CONFIG

/-- A configuration with every field the empty string. -/
def emptyConfig : PipelineConfig :=
  { repoName := "", ownerName := "", podcastTitle := "", podcastDescription := "",
    authorName := "", email := "", imageUrl := "" }

/-- The concrete scenario configuration of the specification:
`ownerName = "acme"`, `repoName = "spaces"`, `podcastTitle = "Acme Spaces"`. -/
def acmeConfig : PipelineConfig :=
  { DEFAULT_CONFIG with
      ownerName := "acme"
      repoName := "spaces"
      podcastTitle := "Acme Spaces" }

/-- `DEFAULT_CONFIG` with only the owner and repository names changed. -/
def ownerVariantConfig : PipelineConfig :=
  { DEFAULT_CONFIG with ownerName := "someoneelse", repoName := "other-repo" }

/-- `DEFAULT_CONFIG` with only the podcast title changed. -/
def titleVariantConfig : PipelineConfig :=
  { DEFAULT_CONFIG with podcastTitle := "Another Title" }

/-- The `language` field of a registry entry, from the union type in
`src/types.ts`. -/
inductive FileLanguage where
  | yaml
  | bash
  | text
  | markdown
deriving DecidableEq, Repr

/-- An artifact descriptor, from `PipelineFile` in `src/types.ts`: a path, a
display name, a language, a content function and a description. -/
structure PipelineFile where
  path : String
  name : String
  language : FileLanguage
  content : PipelineConfig → String
  description : String

/-- The artifact registry, from the `FILES` constant in `src/unnamed/part_000`:
an immutable list of five descriptors in registration order.  The two
generators that take no argument in the source are wrapped in a
configuration-ignoring function, exactly as TypeScript passes the
configuration to a zero-parameter arrow function. -/
def FILES : List PipelineFile :=
  [ { path := ".github/workflows/ingest.yml", name := "Workflow",
      language := .yaml, content := generateIngestYaml,
      description := "Main GitHub Action for download, release, and RSS." }
  , { path := "scripts/ingest.sh", name := "Ingest Script",
      language := .bash, content := fun _ => generateIngestScript,
      description := "Shell script to handle yt-dlp operations safely." }
  , { path := "space_queue.txt", name := "Queue File",
      language := .text, content := fun _ => generateQueueFile,
      description := "The input trigger file. Paste URL here." }
  , { path := "README.md", name := "Documentation",
      language := .markdown, content := generateReadme,
      description := "Instructions for repository users." }
  , { path := ".github/workflows/test_audio.yml", name := "Test Workflow",
      language := .yaml, content := fun _ => generateTestAudioYaml,
      description := "Optional workflow to verify runner capabilities." } ]

/-- A field name of the configuration record, enumerating the seven `name`
attributes of the form inputs in `src/unnamed/part_000`. -/
inductive ConfigField where
  | repoName
  | ownerName
  | podcastTitle
  | podcastDescription
  | authorName
  | email
  | imageUrl
deriving DecidableEq, Repr

/-- Read one configuration field by name. -/
def getField (c : PipelineConfig) : ConfigField → String
  | .repoName => c.repoName
  | .ownerName => c.ownerName
  | .podcastTitle => c.podcastTitle
  | .podcastDescription => c.podcastDescription
  | .authorName => c.authorName
  | .email => c.email
  | .imageUrl => c.imageUrl

/-- The state update of `handleConfigChange` in `src/unnamed/part_000`:
`setConfig(prev => (\x7b ...prev, [name]: value \x7d))` builds a new record that
copies every field of the previous one and replaces the named field. -/
def setConfigField (c : PipelineConfig) : ConfigField → String → PipelineConfig
  | .repoName, v => { c with repoName := v }
  | .ownerName, v => { c with ownerName := v }
  | .podcastTitle, v => { c with podcastTitle := v }
  | .podcastDescription, v => { c with podcastDescription := v }
  | .authorName, v => { c with authorName := v }
  | .email, v => { c with email := v }
  | .imageUrl, v => { c with imageUrl := v }

/-- The POSIX `[[:space:]]` character class used by the scripts (`grep -v` and
`tr -d` patterns): space, tab, newline, carriage return, vertical tab and form
feed. -/
def posixSpace (ch : Char) : Bool :=
  ch == ' ' || ch == '\t' || ch == '\n' || ch == '\r' || ch == '\x0b' || ch == '\x0c'

/-- A queue-file line is blank when every character is POSIX whitespace,
matching the `grep -v` pattern the scripts use to skip such lines. -/
def isBlankLine (l : String) : Bool := l.data.all posixSpace

/-- The effect of `tr -d` deleting the POSIX space class from a line. -/
def stripSpace (l : String) : String := ⟨l.data.filter fun ch => !posixSpace ch⟩

/-- Outcome of the input-resolution stage of an ingest script: the exit code if
the script terminates during resolution (`none` when it proceeds to the
download stage), the lines echoed, the `key=value` lines appended to the CI
output channel, and the resolved locator. -/
structure ResolveResult where
  exitCode : Option Nat
  messages : List String
  outputs : List String
  url : String
deriving DecidableEq, Repr

/-- Input-resolution stage of the minimal generated ingest script
(`generateIngestScript` in `src/utils/templates.ts`, sections 1 and 2),
embedded as a function of the `MANUAL_URL` environment variable (`none` when
unset) and the queue file (`none` when missing, otherwise its lines).

Modelling notes, from the script text: the manual-override test reads
`$\x7bMANUAL_URL:-\x7d` (in the extracted TypeScript source the template-literal
escape for this shell expansion survives only as a stray tab byte; the same
construct appears verbatim in `src/scripts/ingest.sh` line 14).  When the queue
file exists but contains no non-blank line, the `grep | head | tr` pipeline
fails under `set -euo pipefail`, so the assignment aborts the script with
status 1 before any message is printed; the subsequent `-z` check and its
`::error::No URL found in input or queue file!` branch are kept as written even
though a first non-blank line always strips to a nonempty locator. -/
def resolveMinimal (manualUrl : Option String) (queueFile : Option (List String)) :
    ResolveResult :=
  let m := manualUrl.getD ""
  if m ≠ "" then
    { exitCode := none,
      messages := ["Using Manual URL from Workflow Input", "Processing URL: " ++ m],
      outputs := [], url := m }
  else
    match queueFile with
    | none =>
      { exitCode := some 1,
        messages := ["::error::Queue file space_queue.txt not found!"],
        outputs := [], url := "" }
    | some lines =>
      match lines.find? (fun l => !isBlankLine l) with
      | none => { exitCode := some 1, messages := [], outputs := [], url := "" }
      | some l =>
        let url := stripSpace l
        if url = "" then
          { exitCode := some 1,
            messages := ["::error::No URL found in input or queue file!"],
            outputs := [], url := "" }
        else
          { exitCode := none, messages := ["Processing URL: " ++ url],
            outputs := [], url := url }

/-- Input-resolution stage of the extended ingest script
(`src/scripts/ingest.sh`, sections 1 and 2): as the minimal variant, except the
pipeline reading the queue file carries `|| true` (so an all-blank queue yields
an empty locator instead of aborting), and an empty locator is handled by
echoing `Queue is empty. Nothing to process.`, appending `skipped=true` to the
CI output channel when `GITHUB_OUTPUT` is set, and exiting with status `0`. -/
def resolveExtended (manualUrl : Option String) (queueFile : Option (List String))
    (githubOutputSet : Bool) : ResolveResult :=
  let m := manualUrl.getD ""
  if m ≠ "" then
    { exitCode := none,
      messages := ["Using Manual URL from Workflow Input", "Processing URL: " ++ m],
      outputs := [], url := m }
  else
    match queueFile with
    | none =>
      { exitCode := some 1,
        messages := ["::error::Queue file space_queue.txt not found!"],
        outputs := [], url := "" }
    | some lines =>
      let url := stripSpace ((lines.find? (fun l => !isBlankLine l)).getD "")
      if url = "" then
        { exitCode := some 0,
          messages := ["Queue is empty. Nothing to process."],
          outputs := if githubOutputSet then ["skipped=true"] else [],
          url := "" }
      else
        { exitCode := none, messages := ["Processing URL: " ++ url],
          outputs := [], url := url }

theorem occursIn_refl (p : String) : occursIn p p :=
  ⟨"", "", by rw [String.empty_append, String.append_empty]⟩

theorem occursIn_append_left {p s : String} (h : occursIn p s) (t : String) :
    occursIn p (s ++ t) := by
  obtain ⟨x, y, rfl⟩ := h
  exact ⟨x, y ++ t, by simp [String.append_assoc]⟩

theorem occursIn_append_right {p s : String} (h : occursIn p s) (t : String) :
    occursIn p (t ++ s) := by
  obtain ⟨x, y, rfl⟩ := h
  exact ⟨t ++ x, y, by simp [String.append_assoc]⟩

theorem occursIn_weaken {a b s : String} (h : occursIn (a ++ b) s) :
    occursIn a s := by
  obtain ⟨x, y, rfl⟩ := h
  exact ⟨x, b ++ y, by simp [String.append_assoc]⟩

theorem occursIn_data {p s : String} (h : occursIn p s) : p.data <:+: s.data := by
  obtain ⟨x, y, rfl⟩ := h
  exact ⟨x.data, y.data, by simp [String.data_append, List.append_assoc]⟩

theorem hasPrefixL_complete : ∀ {t l : List Char}, t <+: l → hasPrefixL t l = true := by
  intro t
  induction t with
  | nil => intro l _; rfl
  | cons c cs ih =>
    intro l h
    obtain ⟨r, rfl⟩ := h
    simp only [List.cons_append, hasPrefixL, beq_self_eq_true, Bool.true_and]
    exact ih ⟨r, rfl⟩

theorem isSuffixL_of_suffix : ∀ {t l : List Char}, t <:+ l → isSuffixL t l = true := by
  intro t l
  induction l with
  | nil =>
    intro h
    simp [isSuffixL, List.suffix_nil.mp h]
  | cons c cs ih =>
    intro h
    rcases List.suffix_cons_iff.mp h with h1 | h2
    · simp [isSuffixL, h1]
    · simp [isSuffixL, ih h2]

theorem containsSubL_of_head_match {p l : List Char} (h : hasPrefixL p l = true) :
    containsSubL p l = true := by
  cases l with
  | nil => exact h
  | cons c cs => simp [containsSubL, h]

theorem containsSubL_cons {p cs : List Char} (c : Char)
    (h : containsSubL p cs = true) : containsSubL p (c :: cs) = true := by
  simp [containsSubL, h]

theorem containsSubL_complete : ∀ {p l : List Char}, p <:+: l → containsSubL p l = true := by
  intro p l h
  obtain ⟨s, t, rfl⟩ := h
  induction s with
  | nil => exact containsSubL_of_head_match (hasPrefixL_complete ⟨t, rfl⟩)
  | cons a s ih => exact containsSubL_cons a ih

theorem spanHitB_of_span {p a b t₁ t₂ : List Char}
    (hsplit : p = t₁ ++ t₂) (h1 : t₁ ≠ []) (h2 : t₂ ≠ [])
    (hs : t₁ <:+ a) (hpre : t₂ <+: b) : spanHitB p a b = true := by
  have hk : t₁.length < p.length := by
    rw [hsplit, List.length_append]
    have := List.length_pos.mpr h2
    omega
  have htake : p.take t₁.length = t₁ := by rw [hsplit]; exact List.take_left t₁ t₂
  have hdrop : p.drop t₁.length = t₂ := by rw [hsplit]; exact List.drop_left t₁ t₂
  apply List.any_eq_true.mpr
  refine ⟨t₁.length, List.mem_range.mpr hk, ?_⟩
  rw [htake, hdrop]
  have h0 : 0 < t₁.length := List.length_pos.mpr h1
  simp [h0, isSuffixL_of_suffix hs, hasPrefixL_complete hpre]

theorem prefix_into_take {t l : List Char} {n : Nat} (h : t <+: l)
    (hn : t.length ≤ n) : t <+: l.take n := by
  rw [List.prefix_iff_eq_take] at h ⊢
  rw [List.take_take, min_eq_left hn]
  exact h

theorem infix_append_cases {α : Type} {p l₁ l₂ : List α} (h : p <:+: l₁ ++ l₂) :
    p <:+: l₁ ∨ p <:+: l₂ ∨
      ∃ t₁ t₂, p = t₁ ++ t₂ ∧ t₁ ≠ [] ∧ t₂ ≠ [] ∧ t₁ <:+ l₁ ∧ t₂ <+: l₂ := by
  obtain ⟨s, t, heq⟩ := h
  rw [List.append_assoc] at heq
  rcases List.append_eq_append_iff.mp heq with ⟨a, ha1, ha2⟩ | ⟨c, hc1, hc2⟩
  · rcases List.append_eq_append_iff.mp ha2 with ⟨x, hx1, hx2⟩ | ⟨y, hy1, hy2⟩
    · refine Or.inl ⟨s, x, ?_⟩
      rw [ha1, hx1]
      exact List.append_assoc s p x
    · rcases eq_or_ne a [] with rfl | hane
      · refine Or.inr (Or.inl ?_)
        have hp : p = y := by simpa using hy1
        subst hp
        exact (show p <+: l₂ from ⟨t, hy2.symm⟩).isInfix
      · rcases eq_or_ne y [] with rfl | hyne
        · refine Or.inl ?_
          have hp : p = a := by simpa using hy1
          subst hp
          exact (show p <:+ l₁ from ⟨s, ha1.symm⟩).isInfix
        · exact Or.inr (Or.inr ⟨a, y, hy1, hane, hyne, ⟨s, ha1.symm⟩, ⟨t, hy2.symm⟩⟩)
  · refine Or.inr (Or.inl ⟨c, t, ?_⟩)
    rw [hc2]
    exact List.append_assoc c p t

theorem not_infix_strJoin (p : String) (hp : p.data ≠ []) :
    ∀ cs : List String, absOKB p cs = true → ¬ p.data <:+: (strJoin cs).data := by
  intro cs
  induction cs with
  | nil =>
    intro _ h
    exact hp (List.infix_nil.mp h)
  | cons a rest ih =>
    cases rest with
    | nil =>
      intro hok h
      have h2 : p.data <:+: a.data := by
        simpa [strJoin, String.append_empty] using h
      have hc := containsSubL_complete h2
      simp [absOKB, hc] at hok
    | cons b rest2 =>
      intro hok h
      have hok2 : (containsSubL p.data a.data = false ∧
          spanHitB p.data a.data ((strJoin (b :: rest2)).data.take p.data.length) = false) ∧
          absOKB p (b :: rest2) = true := by
        simpa [absOKB, Bool.and_eq_true, Bool.not_eq_true'] using hok
      obtain ⟨⟨hcA, hspan⟩, hrest⟩ := hok2
      rw [show strJoin (a :: b :: rest2) = a ++ strJoin (b :: rest2) from rfl,
        String.data_append] at h
      rcases infix_append_cases h with h1 | h2 | ⟨t₁, t₂, hsplit, hne1, hne2, hsuf, hpre⟩
      · rw [containsSubL_complete h1] at hcA
        simp at hcA
      · exact ih hrest h2
      · have hlen : t₂.length < p.data.length := by
          rw [hsplit, List.length_append]
          have := List.length_pos.mpr hne1
          omega
        have hpre2 := prefix_into_take hpre (le_of_lt hlen)
        rw [spanHitB_of_span hsplit hne1 hne2 hsuf hpre2] at hspan
        simp at hspan

theorem not_occursIn_strJoin {p : String} (hp : p ≠ "") {cs : List String}
    (hok : absOKB p cs = true) : ¬ occursIn p (strJoin cs) := by
  intro hocc
  have hpd : p.data ≠ [] := by
    intro hd
    exact hp (String.ext hd)
  exact not_infix_strJoin p hpd cs hok (occursIn_data hocc)

theorem occursIn_part1_of_pre {p : String} (h : occursIn p ingestYamlPart1Pre) :
    occursIn p ingestYamlPart1 :=
  occursIn_append_left h _

theorem occursIn_yaml_of_part1 {p : String} (h : occursIn p ingestYamlPart1)
    (c : PipelineConfig) : occursIn p (generateIngestYaml c) := by
  unfold generateIngestYaml
  apply occursIn_append_left
  apply occursIn_append_left
  apply occursIn_append_left
  apply occursIn_append_left
  apply occursIn_append_left
  apply occursIn_append_left
  apply occursIn_append_left
  apply occursIn_append_left
  apply occursIn_append_left
  apply occursIn_append_left
  exact h

theorem append_ne_empty_left {a : String} (b : String) (h : a ≠ "") :
    a ++ b ≠ "" := by
  intro he
  apply h
  have hd : (a ++ b).data = [] := by rw [he]
  rw [String.data_append] at hd
  exact String.ext (List.append_eq_nil.mp hd).1
/-- The `jobs:` header occurs in the workflow template. -/
theorem occPre_jobs : occursIn "\njobs:\n" ingestYamlPart1Pre := by
  unfold ingestYamlPart1Pre
  apply occursIn_append_left
  apply occursIn_append_left
  apply occursIn_append_left
  apply occursIn_append_left
  apply occursIn_append_left
  apply occursIn_append_left
  apply occursIn_append_left
  apply occursIn_append_left
  apply occursIn_append_left
  apply occursIn_append_left
  apply occursIn_append_left
  apply occursIn_append_left
  apply occursIn_append_left
  apply occursIn_append_left
  apply occursIn_append_left
  apply occursIn_append_left
  apply occursIn_append_left
  apply occursIn_append_left
  apply occursIn_append_left
  apply occursIn_append_left
  apply occursIn_append_left
  apply occursIn_append_left
  apply occursIn_append_left
  apply occursIn_append_left
  apply occursIn_append_left
  apply occursIn_append_left
  apply occursIn_append_left
  apply occursIn_append_left
  apply occursIn_append_left
  apply occursIn_append_left
  apply occursIn_append_left
  apply occursIn_append_left
  apply occursIn_append_left
  apply occursIn_append_left
  apply occursIn_append_left
  apply occursIn_append_left
  apply occursIn_append_left
  apply occursIn_append_left
  apply occursIn_append_right
  exact occursIn_refl _

/-- The ingest job header with its `outputs:` block occurs in the template. -/
theorem occPre_ingest_block : occursIn "  ingest:\n    runs-on: ubuntu-latest\n    outputs:\n" ingestYamlPart1Pre := by
  unfold ingestYamlPart1Pre
  apply occursIn_append_left
  apply occursIn_append_left
  apply occursIn_append_left
  apply occursIn_append_left
  apply occursIn_append_left
  apply occursIn_append_left
  apply occursIn_append_left
  apply occursIn_append_left
  apply occursIn_append_left
  apply occursIn_append_left
  apply occursIn_append_left
  apply occursIn_append_left
  apply occursIn_append_left
  apply occursIn_append_left
  apply occursIn_append_left
  apply occursIn_append_left
  apply occursIn_append_left
  apply occursIn_append_left
  apply occursIn_append_left
  apply occursIn_append_left
  apply occursIn_append_left
  apply occursIn_append_left
  apply occursIn_append_left
  apply occursIn_append_left
  apply occursIn_append_left
  apply occursIn_append_left
  apply occursIn_append_left
  apply occursIn_append_left
  apply occursIn_append_left
  apply occursIn_append_left
  apply occursIn_append_left
  apply occursIn_append_left
  apply occursIn_append_left
  apply occursIn_append_left
  apply occursIn_append_left
  apply occursIn_append_left
  apply occursIn_append_left
  apply occursIn_append_right
  exact occursIn_refl _

/-- The `mp3_path` output declaration of the ingest job occurs in the template. -/
theorem occPre_decl_mp3 : occursIn "      mp3_path: $\x7b\x7b steps.process.outputs.mp3_path \x7d\x7d\n" ingestYamlPart1Pre := by
  unfold ingestYamlPart1Pre
  apply occursIn_append_left
  apply occursIn_append_left
  apply occursIn_append_left
  apply occursIn_append_left
  apply occursIn_append_left
  apply occursIn_append_left
  apply occursIn_append_left
  apply occursIn_append_left
  apply occursIn_append_left
  apply occursIn_append_left
  apply occursIn_append_left
  apply occursIn_append_left
  apply occursIn_append_left
  apply occursIn_append_left
  apply occursIn_append_left
  apply occursIn_append_left
  apply occursIn_append_left
  apply occursIn_append_left
  apply occursIn_append_left
  apply occursIn_append_left
  apply occursIn_append_left
  apply occursIn_append_left
  apply occursIn_append_left
  apply occursIn_append_left
  apply occursIn_append_left
  apply occursIn_append_left
  apply occursIn_append_left
  apply occursIn_append_left
  apply occursIn_append_left
  apply occursIn_append_left
  apply occursIn_append_left
  apply occursIn_append_left
  apply occursIn_append_left
  apply occursIn_append_left
  apply occursIn_append_left
  apply occursIn_append_left
  apply occursIn_append_right
  exact occursIn_refl _

/-- The `release_tag` output declaration occurs in the template. -/
theorem occPre_decl_release : occursIn "      release_tag: $\x7b\x7b steps.process.outputs.release_tag \x7d\x7d\n" ingestYamlPart1Pre := by
  unfold ingestYamlPart1Pre
  apply occursIn_append_left
  apply occursIn_append_left
  apply occursIn_append_left
  apply occursIn_append_left
  apply occursIn_append_left
  apply occursIn_append_left
  apply occursIn_append_left
  apply occursIn_append_left
  apply occursIn_append_left
  apply occursIn_append_left
  apply occursIn_append_left
  apply occursIn_append_left
  apply occursIn_append_left
  apply occursIn_append_left
  apply occursIn_append_left
  apply occursIn_append_left
  apply occursIn_append_left
  apply occursIn_append_left
  apply occursIn_append_left
  apply occursIn_append_left
  apply occursIn_append_left
  apply occursIn_append_left
  apply occursIn_append_left
  apply occursIn_append_left
  apply occursIn_append_left
  apply occursIn_append_left
  apply occursIn_append_left
  apply occursIn_append_left
  apply occursIn_append_left
  apply occursIn_append_left
  apply occursIn_append_left
  apply occursIn_append_left
  apply occursIn_append_left
  apply occursIn_append_left
  apply occursIn_append_left
  apply occursIn_append_right
  exact occursIn_refl _

/-- The `space_title` output declaration occurs in the template. -/
theorem occPre_decl_title : occursIn "      space_title: $\x7b\x7b steps.process.outputs.space_title \x7d\x7d\n" ingestYamlPart1Pre := by
  unfold ingestYamlPart1Pre
  apply occursIn_append_left
  apply occursIn_append_left
  apply occursIn_append_left
  apply occursIn_append_left
  apply occursIn_append_left
  apply occursIn_append_left
  apply occursIn_append_left
  apply occursIn_append_left
  apply occursIn_append_left
  apply occursIn_append_left
  apply occursIn_append_left
  apply occursIn_append_left
  apply occursIn_append_left
  apply occursIn_append_left
  apply occursIn_append_left
  apply occursIn_append_left
  apply occursIn_append_left
  apply occursIn_append_left
  apply occursIn_append_left
  apply occursIn_append_left
  apply occursIn_append_left
  apply occursIn_append_left
  apply occursIn_append_left
  apply occursIn_append_left
  apply occursIn_append_left
  apply occursIn_append_left
  apply occursIn_append_left
  apply occursIn_append_left
  apply occursIn_append_left
  apply occursIn_append_left
  apply occursIn_append_left
  apply occursIn_append_left
  apply occursIn_append_left
  apply occursIn_append_left
  apply occursIn_append_right
  exact occursIn_refl _

/-- The `duration` output declaration occurs in the template. -/
theorem occPre_decl_duration : occursIn "      duration: $\x7b\x7b steps.duration.outputs.duration \x7d\x7d\n" ingestYamlPart1Pre := by
  unfold ingestYamlPart1Pre
  apply occursIn_append_left
  apply occursIn_append_left
  apply occursIn_append_left
  apply occursIn_append_left
  apply occursIn_append_left
  apply occursIn_append_left
  apply occursIn_append_left
  apply occursIn_append_left
  apply occursIn_append_left
  apply occursIn_append_left
  apply occursIn_append_left
  apply occursIn_append_left
  apply occursIn_append_left
  apply occursIn_append_left
  apply occursIn_append_left
  apply occursIn_append_left
  apply occursIn_append_left
  apply occursIn_append_left
  apply occursIn_append_left
  apply occursIn_append_left
  apply occursIn_append_left
  apply occursIn_append_left
  apply occursIn_append_left
  apply occursIn_append_left
  apply occursIn_append_left
  apply occursIn_append_left
  apply occursIn_append_left
  apply occursIn_append_left
  apply occursIn_append_left
  apply occursIn_append_left
  apply occursIn_append_left
  apply occursIn_append_left
  apply occursIn_append_left
  apply occursIn_append_right
  exact occursIn_refl _

/-- The ingest job `steps:` section occurs in the template. -/
theorem occPre_ingest_steps : occursIn "    steps:\n      - name: Checkout\n" ingestYamlPart1Pre := by
  unfold ingestYamlPart1Pre
  apply occursIn_append_left
  apply occursIn_append_left
  apply occursIn_append_left
  apply occursIn_append_left
  apply occursIn_append_left
  apply occursIn_append_left
  apply occursIn_append_left
  apply occursIn_append_left
  apply occursIn_append_left
  apply occursIn_append_left
  apply occursIn_append_left
  apply occursIn_append_left
  apply occursIn_append_left
  apply occursIn_append_left
  apply occursIn_append_left
  apply occursIn_append_left
  apply occursIn_append_left
  apply occursIn_append_left
  apply occursIn_append_left
  apply occursIn_append_left
  apply occursIn_append_left
  apply occursIn_append_left
  apply occursIn_append_left
  apply occursIn_append_left
  apply occursIn_append_left
  apply occursIn_append_left
  apply occursIn_append_left
  apply occursIn_append_left
  apply occursIn_append_left
  apply occursIn_append_left
  apply occursIn_append_left
  apply occursIn_append_left
  apply occursIn_append_right
  exact occursIn_refl _

/-- The rss job header with `needs: ingest` and its `steps:` occurs in the template. -/
theorem occPre_rss_block : occursIn "\n  rss:\n    needs: ingest\n    runs-on: ubuntu-latest\n    steps:\n" ingestYamlPart1Pre := by
  unfold ingestYamlPart1Pre
  apply occursIn_append_left
  apply occursIn_append_left
  apply occursIn_append_left
  apply occursIn_append_left
  apply occursIn_append_right
  exact occursIn_refl _

/-- The workflow text at the default configuration equals the join of its atom
list (a pure reassociation of the definition). -/
theorem yamlDefault_eq_join :
    generateIngestYaml DEFAULT_CONFIG = strJoin yamlDefaultAtoms := by
  simp only [generateIngestYaml, DEFAULT_CONFIG, ingestYamlPart1, ingestYamlPart1Pre,
    ingestYamlPart2, ingestYamlPart3, ingestYamlPart4, ingestYamlPart5, ingestYamlPart6,
    ingestYamlPart6Tail, yamlDefaultAtoms, strJoin, String.append_assoc, String.append_empty]

theorem yaml_title_occursIn (c : PipelineConfig) :
    occursIn ("          PODCAST_TITLE: \"" ++ c.podcastTitle ++ "\"\n")
      (generateIngestYaml c) :=
  ⟨ingestYamlPart1Pre,
   "          PODCAST_DESC: \"" ++ c.podcastDescription ++ "\"\n" ++
     "          PODCAST_AUTHOR: \"" ++ c.authorName ++ "\"\n" ++
     "          PODCAST_EMAIL: \"" ++ c.email ++ "\"\n" ++
     "          PODCAST_IMAGE: \"" ++ c.imageUrl ++ "\"\n" ++ ingestYamlPart6Tail,
   by simp only [generateIngestYaml, ingestYamlPart1, ingestYamlPart2, ingestYamlPart3,
     ingestYamlPart4, ingestYamlPart5, ingestYamlPart6, String.append_assoc]⟩

theorem yaml_desc_occursIn (c : PipelineConfig) :
    occursIn ("          PODCAST_DESC: \"" ++ c.podcastDescription ++ "\"\n")
      (generateIngestYaml c) :=
  ⟨ingestYamlPart1 ++ c.podcastTitle ++ "\"\n",
   "          PODCAST_AUTHOR: \"" ++ c.authorName ++ "\"\n" ++
     "          PODCAST_EMAIL: \"" ++ c.email ++ "\"\n" ++
     "          PODCAST_IMAGE: \"" ++ c.imageUrl ++ "\"\n" ++ ingestYamlPart6Tail,
   by simp only [generateIngestYaml, ingestYamlPart2, ingestYamlPart3,
     ingestYamlPart4, ingestYamlPart5, ingestYamlPart6, String.append_assoc]⟩

theorem yaml_author_occursIn (c : PipelineConfig) :
    occursIn ("          PODCAST_AUTHOR: \"" ++ c.authorName ++ "\"\n")
      (generateIngestYaml c) :=
  ⟨ingestYamlPart1 ++ c.podcastTitle ++ ingestYamlPart2 ++ c.podcastDescription ++ "\"\n",
   "          PODCAST_EMAIL: \"" ++ c.email ++ "\"\n" ++
     "          PODCAST_IMAGE: \"" ++ c.imageUrl ++ "\"\n" ++ ingestYamlPart6Tail,
   by simp only [generateIngestYaml, ingestYamlPart3,
     ingestYamlPart4, ingestYamlPart5, ingestYamlPart6, String.append_assoc]⟩

theorem yaml_email_occursIn (c : PipelineConfig) :
    occursIn ("          PODCAST_EMAIL: \"" ++ c.email ++ "\"\n")
      (generateIngestYaml c) :=
  ⟨ingestYamlPart1 ++ c.podcastTitle ++ ingestYamlPart2 ++ c.podcastDescription ++
     ingestYamlPart3 ++ c.authorName ++ "\"\n",
   "          PODCAST_IMAGE: \"" ++ c.imageUrl ++ "\"\n" ++ ingestYamlPart6Tail,
   by simp only [generateIngestYaml, ingestYamlPart4, ingestYamlPart5, ingestYamlPart6,
     String.append_assoc]⟩

theorem yaml_image_occursIn (c : PipelineConfig) :
    occursIn ("          PODCAST_IMAGE: \"" ++ c.imageUrl ++ "\"\n")
      (generateIngestYaml c) :=
  ⟨ingestYamlPart1 ++ c.podcastTitle ++ ingestYamlPart2 ++ c.podcastDescription ++
     ingestYamlPart3 ++ c.authorName ++ ingestYamlPart4 ++ c.email ++ "\"\n",
   ingestYamlPart6Tail,
   by simp only [generateIngestYaml, ingestYamlPart5, ingestYamlPart6,
     String.append_assoc]⟩

theorem readme_url_occursIn (c : PipelineConfig) :
    occursIn ("https://" ++ c.ownerName ++ ".github.io/" ++ c.repoName ++ "/podcast.xml\n")
      (generateReadme c) :=
  ⟨readmePart1 ++ c.podcastTitle ++ " Pipeline\n" ++ readmePart2Mid,
   readmePart4Tail,
   by simp only [generateReadme, readmePart2, readmePart3, readmePart4,
     String.append_assoc]⟩

theorem readme_heading_occursIn (c : PipelineConfig) :
    occursIn ("# " ++ c.podcastTitle ++ " Pipeline\n") (generateReadme c) :=
  ⟨"",
   readmePart2Mid ++ "https://" ++ c.ownerName ++ readmePart3 ++ c.repoName ++ readmePart4,
   by simp only [generateReadme, readmePart1, readmePart2, String.append_assoc,
     String.empty_append]⟩

theorem yamlDefault_no_needs_dot :
    ¬ occursIn "needs." (generateIngestYaml DEFAULT_CONFIG) := by
  rw [yamlDefault_eq_join]
  exact not_occursIn_strJoin (by decide) (by decide)

/-- C1: The workflow-definition generator's output depends on exactly the five
podcast metadata fields: two configurations agreeing on `podcastTitle`,
`podcastDescription`, `authorName`, `email` and `imageUrl` produce
byte-identical workflow text; and two configurations differing only in
`podcastTitle` produce workflow and README outputs of the form
`prefix ++ title ++ tail` with identical prefixes and identical tails, so the
outputs differ only in the substrings derived from the title (the README
heading and the workflow's `PODCAST_TITLE` environment assignment). -/
theorem claim_C1_yaml_depends_only_on_podcast_fields :
    (∀ c₁ c₂ : PipelineConfig,
      c₁.podcastTitle = c₂.podcastTitle →
      c₁.podcastDescription = c₂.podcastDescription →
      c₁.authorName = c₂.authorName →
      c₁.email = c₂.email →
      c₁.imageUrl = c₂.imageUrl →
      generateIngestYaml c₁ = generateIngestYaml c₂) ∧
    (∀ c₁ c₂ : PipelineConfig,
      c₁.repoName = c₂.repoName →
      c₁.ownerName = c₂.ownerName →
      c₁.podcastDescription = c₂.podcastDescription →
      c₁.authorName = c₂.authorName →
      c₁.email = c₂.email →
      c₁.imageUrl = c₂.imageUrl →
      c₁.podcastTitle ≠ c₂.podcastTitle →
      generateIngestYaml c₁ = ingestYamlPart1 ++ c₁.podcastTitle ++ ingestYamlTitleTail c₁ ∧
      generateIngestYaml c₂ = ingestYamlPart1 ++ c₂.podcastTitle ++ ingestYamlTitleTail c₂ ∧
      ingestYamlTitleTail c₁ = ingestYamlTitleTail c₂ ∧
      generateReadme c₁ = readmePart1 ++ c₁.podcastTitle ++ readmeTitleTail c₁ ∧
      generateReadme c₂ = readmePart1 ++ c₂.podcastTitle ++ readmeTitleTail c₂ ∧
      readmeTitleTail c₁ = readmeTitleTail c₂) := by
  constructor
  · intro c₁ c₂ h1 h2 h3 h4 h5
    unfold generateIngestYaml
    rw [h1, h2, h3, h4, h5]
  · intro c₁ c₂ hr ho h2 h3 h4 h5 hne
    refine ⟨?_, ?_, ?_, ?_, ?_, ?_⟩
    · simp only [generateIngestYaml, ingestYamlTitleTail, String.append_assoc]
    · simp only [generateIngestYaml, ingestYamlTitleTail, String.append_assoc]
    · unfold ingestYamlTitleTail
      rw [h2, h3, h4, h5]
    · simp only [generateReadme, readmeTitleTail, String.append_assoc]
    · simp only [generateReadme, readmeTitleTail, String.append_assoc]
    · unfold readmeTitleTail
      rw [hr, ho]

/-- C1 witness: concrete instances of both parts, at the default configuration
against an owner/repo variant (identical workflow text) and against a
title-only variant (identical tails). -/
theorem claim_C1_witness :
    generateIngestYaml DEFAULT_CONFIG = generateIngestYaml ownerVariantConfig ∧
    ingestYamlTitleTail DEFAULT_CONFIG = ingestYamlTitleTail titleVariantConfig ∧
    readmeTitleTail DEFAULT_CONFIG = readmeTitleTail titleVariantConfig :=
  ⟨claim_C1_yaml_depends_only_on_podcast_fields.1 DEFAULT_CONFIG ownerVariantConfig
      rfl rfl rfl rfl rfl,
   (claim_C1_yaml_depends_only_on_podcast_fields.2 DEFAULT_CONFIG titleVariantConfig
      rfl rfl rfl rfl rfl rfl (by decide)).2.2.1,
   (claim_C1_yaml_depends_only_on_podcast_fields.2 DEFAULT_CONFIG titleVariantConfig
      rfl rfl rfl rfl rfl rfl (by decide)).2.2.2.2.2⟩

/-- C2 counterexample: at the default configuration the generated workflow text
contains no `needs.ingest.outputs.*` reference at all — the rss job never
consumes any of the four outputs declared by the ingest job (a job consumes
another job's output in a GitHub Actions workflow only through the
`needs.<job>.outputs.<name>` context). -/
theorem claim_C2_counterexample :
    ¬ occursIn "needs.ingest.outputs.mp3_path" (generateIngestYaml DEFAULT_CONFIG) ∧
    ¬ occursIn "needs.ingest.outputs.release_tag" (generateIngestYaml DEFAULT_CONFIG) ∧
    ¬ occursIn "needs.ingest.outputs.space_title" (generateIngestYaml DEFAULT_CONFIG) ∧
    ¬ occursIn "needs.ingest.outputs.duration" (generateIngestYaml DEFAULT_CONFIG) := by
  refine ⟨?_, ?_, ?_, ?_⟩
  · intro h
    rw [show ("needs.ingest.outputs.mp3_path" : String) =
      "needs." ++ "ingest.outputs.mp3_path" from rfl] at h
    exact yamlDefault_no_needs_dot (occursIn_weaken h)
  · intro h
    rw [show ("needs.ingest.outputs.release_tag" : String) =
      "needs." ++ "ingest.outputs.release_tag" from rfl] at h
    exact yamlDefault_no_needs_dot (occursIn_weaken h)
  · intro h
    rw [show ("needs.ingest.outputs.space_title" : String) =
      "needs." ++ "ingest.outputs.space_title" from rfl] at h
    exact yamlDefault_no_needs_dot (occursIn_weaken h)
  · intro h
    rw [show ("needs.ingest.outputs.duration" : String) =
      "needs." ++ "ingest.outputs.duration" from rfl] at h
    exact yamlDefault_no_needs_dot (occursIn_weaken h)

/-- C2 amended: for every configuration the generated workflow makes the rss
job depend on the ingest job (`needs: ingest`), and the ingest job declares the
four named outputs `mp3_path`, `release_tag`, `space_title` and `duration`;
but the rss job does not consume these outputs — at the default configuration
the text contains no `needs.ingest` reference anywhere (the rss job re-derives
its data from the GitHub releases API instead). -/
theorem claim_C2_amended_rss_depends_but_does_not_consume (c : PipelineConfig) :
    occursIn "\n  rss:\n    needs: ingest\n    runs-on: ubuntu-latest\n    steps:\n"
      (generateIngestYaml c) ∧
    occursIn "      mp3_path: $\x7b\x7b steps.process.outputs.mp3_path \x7d\x7d\n"
      (generateIngestYaml c) ∧
    occursIn "      release_tag: $\x7b\x7b steps.process.outputs.release_tag \x7d\x7d\n"
      (generateIngestYaml c) ∧
    occursIn "      space_title: $\x7b\x7b steps.process.outputs.space_title \x7d\x7d\n"
      (generateIngestYaml c) ∧
    occursIn "      duration: $\x7b\x7b steps.duration.outputs.duration \x7d\x7d\n"
      (generateIngestYaml c) ∧
    ¬ occursIn "needs.ingest" (generateIngestYaml DEFAULT_CONFIG) := by
  refine ⟨occursIn_yaml_of_part1 (occursIn_part1_of_pre occPre_rss_block) c,
    occursIn_yaml_of_part1 (occursIn_part1_of_pre occPre_decl_mp3) c,
    occursIn_yaml_of_part1 (occursIn_part1_of_pre occPre_decl_release) c,
    occursIn_yaml_of_part1 (occursIn_part1_of_pre occPre_decl_title) c,
    occursIn_yaml_of_part1 (occursIn_part1_of_pre occPre_decl_duration) c, ?_⟩
  intro h
  rw [show ("needs.ingest" : String) = "needs." ++ "ingest" from rfl] at h
  exact yamlDefault_no_needs_dot (occursIn_weaken h)

/-- C2 witness: the dependency conjunct of the amended claim at the default
configuration. -/
theorem claim_C2_witness :
    occursIn "\n  rss:\n    needs: ingest\n    runs-on: ubuntu-latest\n    steps:\n"
      (generateIngestYaml DEFAULT_CONFIG) :=
  (claim_C2_amended_rss_depends_but_does_not_consume DEFAULT_CONFIG).1

/-- C3 counterexample: with no manual override and a queue file whose only line
is blank, the extended ingest script (`src/scripts/ingest.sh`) exits with
status 0 — not non-zero as claimed — printing `Queue is empty. Nothing to
process.` and emitting `skipped=true`. -/
theorem claim_C3_counterexample :
    (resolveExtended none (some [""]) true).exitCode = some 0 ∧
    (resolveExtended none (some [""]) true).messages =
      ["Queue is empty. Nothing to process."] ∧
    (resolveExtended none (some [""]) true).outputs = ["skipped=true"] := by
  decide

/-- C3 amended: when the queue file is missing (and no override is set) both
script variants emit the `::error::Queue file space_queue.txt not found!`
marker and exit 1; when the queue file exists but yields no non-blank line,
the minimal generated variant exits 1 (aborted by `set -euo pipefail` at the
failing pipeline, before printing any marker), while the extended variant
exits 0 with `Queue is empty. Nothing to process.` and `skipped=true`. -/
theorem claim_C3_amended_resolution_failure_modes
    (manualUrl : Option String) (lines : List String)
    (hm : manualUrl.getD "" = "") (hblank : lines.all isBlankLine = true) :
    (resolveMinimal manualUrl none).exitCode = some 1 ∧
    (resolveMinimal manualUrl none).messages =
      ["::error::Queue file space_queue.txt not found!"] ∧
    (resolveExtended manualUrl none true).exitCode = some 1 ∧
    (resolveExtended manualUrl none true).messages =
      ["::error::Queue file space_queue.txt not found!"] ∧
    (resolveMinimal manualUrl (some lines)).exitCode = some 1 ∧
    (resolveMinimal manualUrl (some lines)).messages = [] ∧
    (resolveExtended manualUrl (some lines) true).exitCode = some 0 ∧
    (resolveExtended manualUrl (some lines) true).messages =
      ["Queue is empty. Nothing to process."] ∧
    (resolveExtended manualUrl (some lines) true).outputs = ["skipped=true"] := by
  have hf : lines.find? (fun l => !isBlankLine l) = none := by
    rw [List.find?_eq_none]
    intro x hx
    simp [List.all_eq_true.mp hblank x hx]
  have hs : stripSpace "" = "" := rfl
  simp [resolveMinimal, resolveExtended, hm, hf, hs]

/-- C3 witness: the amended claim at the concrete input of the counterexample
(no override, a queue file with a single empty line). -/
theorem claim_C3_witness :
    (resolveMinimal none (some [""])).exitCode = some 1 ∧
    (resolveExtended none (some [""]) true).exitCode = some 0 :=
  ⟨(claim_C3_amended_resolution_failure_modes none [""] rfl (by decide)).2.2.2.2.1,
   (claim_C3_amended_resolution_failure_modes none [""] rfl (by decide)).2.2.2.2.2.2.1⟩

/-- C4: for every configuration with non-empty owner and repository names the
README contains the feed URL `https://OWNER.github.io/REPO/podcast.xml`
followed by a newline, built from exactly those two fields; at the concrete
scenario configuration (`acme`/`spaces`/`Acme Spaces`) the README contains the
literal text `https://acme.github.io/spaces/podcast.xml` ending its line, and
the heading line `# Acme Spaces Pipeline`. -/
theorem claim_C4_readme_feed_url :
    (∀ c : PipelineConfig, c.ownerName ≠ "" → c.repoName ≠ "" →
      occursIn ("https://" ++ c.ownerName ++ ".github.io/" ++ c.repoName ++ "/podcast.xml\n")
        (generateReadme c)) ∧
    occursIn "https://acme.github.io/spaces/podcast.xml\n" (generateReadme acmeConfig) ∧
    occursIn "# Acme Spaces Pipeline\n" (generateReadme acmeConfig) := by
  refine ⟨fun c _ _ => readme_url_occursIn c, ?_, ?_⟩
  · have h := readme_url_occursIn acmeConfig
    have e : "https://" ++ acmeConfig.ownerName ++ ".github.io/" ++ acmeConfig.repoName ++
        "/podcast.xml\n" = "https://acme.github.io/spaces/podcast.xml\n" := rfl
    exact e ▸ h
  · have h := readme_heading_occursIn acmeConfig
    have e : "# " ++ acmeConfig.podcastTitle ++ " Pipeline\n" = "# Acme Spaces Pipeline\n" := rfl
    exact e ▸ h

/-- C4 witness: the universally quantified part applied at the scenario
configuration, discharging both non-emptiness hypotheses. -/
theorem claim_C4_witness :
    occursIn ("https://" ++ acmeConfig.ownerName ++ ".github.io/" ++ acmeConfig.repoName ++
      "/podcast.xml\n") (generateReadme acmeConfig) :=
  claim_C4_readme_feed_url.1 acmeConfig (by decide) (by decide)

/-- C5: the artifact registry `FILES` is a fixed sequence of exactly five
descriptors whose path values are pairwise distinct, in registration order
(in the embedding `FILES` is an immutable constant, so every listing returns
the same sequence). -/
theorem claim_C5_registry_five_distinct_paths :
    FILES.length = 5 ∧
    FILES.map (fun f => f.path) =
      [".github/workflows/ingest.yml", "scripts/ingest.sh", "space_queue.txt",
       "README.md", ".github/workflows/test_audio.yml"] ∧
    (FILES.map (fun f => f.path)).Nodup := by
  refine ⟨rfl, rfl, ?_⟩
  decide

/-- C6: the shell-script, queue-file and test-workflow registry entries are
config-independent: their content functions return byte-identical text for any
two configurations. -/
theorem claim_C6_config_independent_generators (c₁ c₂ : PipelineConfig) :
    (FILES[1]?.map fun f => f.path) = some "scripts/ingest.sh" ∧
    (FILES[1]?.map fun f => f.content c₁) = (FILES[1]?.map fun f => f.content c₂) ∧
    (FILES[2]?.map fun f => f.path) = some "space_queue.txt" ∧
    (FILES[2]?.map fun f => f.content c₁) = (FILES[2]?.map fun f => f.content c₂) ∧
    (FILES[4]?.map fun f => f.path) = some ".github/workflows/test_audio.yml" ∧
    (FILES[4]?.map fun f => f.content c₁) = (FILES[4]?.map fun f => f.content c₂) :=
  ⟨rfl, rfl, rfl, rfl, rfl, rfl⟩

/-- C7: every generator is total and returns non-empty text on any
configuration (all-empty fields included), and the workflow output always
retains its structural sections — the `jobs:` header, the ingest job with its
outputs and steps, the dependent rss job with its steps, and the environment
assignment of the title — with an empty interpolated value when
`podcastTitle` is empty. -/
theorem claim_C7_generators_total_and_structured (c : PipelineConfig) :
    generateIngestYaml c ≠ "" ∧
    generateIngestScript ≠ "" ∧
    generateReadme c ≠ "" ∧
    generateQueueFile ≠ "" ∧
    generateTestAudioYaml ≠ "" ∧
    occursIn "\njobs:\n" (generateIngestYaml c) ∧
    occursIn "  ingest:\n    runs-on: ubuntu-latest\n    outputs:\n" (generateIngestYaml c) ∧
    occursIn "    steps:\n      - name: Checkout\n" (generateIngestYaml c) ∧
    occursIn "\n  rss:\n    needs: ingest\n    runs-on: ubuntu-latest\n    steps:\n"
      (generateIngestYaml c) ∧
    occursIn ("          PODCAST_TITLE: \"" ++ c.podcastTitle ++ "\"\n")
      (generateIngestYaml c) ∧
    (c.podcastTitle = "" →
      occursIn "          PODCAST_TITLE: \"\"\n" (generateIngestYaml c)) := by
  refine ⟨?_, ?_, ?_, ?_, ?_,
    occursIn_yaml_of_part1 (occursIn_part1_of_pre occPre_jobs) c,
    occursIn_yaml_of_part1 (occursIn_part1_of_pre occPre_ingest_block) c,
    occursIn_yaml_of_part1 (occursIn_part1_of_pre occPre_ingest_steps) c,
    occursIn_yaml_of_part1 (occursIn_part1_of_pre occPre_rss_block) c,
    yaml_title_occursIn c, ?_⟩
  · unfold generateIngestYaml
    repeat apply append_ne_empty_left
    decide
  · unfold generateIngestScript ingestScriptText
    repeat apply append_ne_empty_left
    decide
  · unfold generateReadme
    repeat apply append_ne_empty_left
    decide
  · decide
  · unfold generateTestAudioYaml testAudioYamlText
    repeat apply append_ne_empty_left
    decide
  · intro h
    have ho := yaml_title_occursIn c
    rw [h] at ho
    have e : "          PODCAST_TITLE: \"" ++ "" ++ "\"\n" =
        "          PODCAST_TITLE: \"\"\n" := rfl
    exact e ▸ ho

/-- C7 witness: the empty-title conjunct at the all-empty configuration. -/
theorem claim_C7_witness :
    occursIn "          PODCAST_TITLE: \"\"\n" (generateIngestYaml emptyConfig) :=
  (claim_C7_generators_total_and_structured emptyConfig).2.2.2.2.2.2.2.2.2.2 rfl

/-- C8: no validation or reformatting is performed — every interpolated field
value appears verbatim in the generated text: the five podcast metadata fields
inside the workflow's environment assignments, and the owner, repository and
title fields in the README (feed URL and heading). -/
theorem claim_C8_verbatim_interpolation (c : PipelineConfig) :
    occursIn ("          PODCAST_TITLE: \"" ++ c.podcastTitle ++ "\"\n")
      (generateIngestYaml c) ∧
    occursIn ("          PODCAST_DESC: \"" ++ c.podcastDescription ++ "\"\n")
      (generateIngestYaml c) ∧
    occursIn ("          PODCAST_AUTHOR: \"" ++ c.authorName ++ "\"\n")
      (generateIngestYaml c) ∧
    occursIn ("          PODCAST_EMAIL: \"" ++ c.email ++ "\"\n")
      (generateIngestYaml c) ∧
    occursIn ("          PODCAST_IMAGE: \"" ++ c.imageUrl ++ "\"\n")
      (generateIngestYaml c) ∧
    occursIn ("https://" ++ c.ownerName ++ ".github.io/" ++ c.repoName ++ "/podcast.xml\n")
      (generateReadme c) ∧
    occursIn ("# " ++ c.podcastTitle ++ " Pipeline\n") (generateReadme c) :=
  ⟨yaml_title_occursIn c, yaml_desc_occursIn c, yaml_author_occursIn c,
   yaml_email_occursIn c, yaml_image_occursIn c, readme_url_occursIn c,
   readme_heading_occursIn c⟩

/-- C9: updating one configuration field produces a record in which exactly
that field holds the new value and every other field is unchanged
(copy-on-write whole-record replacement, as in `handleConfigChange`). -/
theorem claim_C9_field_update_frame (c : PipelineConfig) (f : ConfigField) (v : String) :
    getField (setConfigField c f v) f = v ∧
    ∀ g : ConfigField, g ≠ f → getField (setConfigField c f v) g = getField c g := by
  cases f <;>
    exact ⟨rfl, by intro g hg; cases g <;> first | rfl | exact absurd rfl hg⟩

/-- C9 witness: setting the title leaves the owner field of the default
configuration unchanged. -/
theorem claim_C9_witness :
    getField (setConfigField DEFAULT_CONFIG ConfigField.podcastTitle "X")
      ConfigField.ownerName = "aiandbotsgalore" :=
  ((claim_C9_field_update_frame DEFAULT_CONFIG ConfigField.podcastTitle "X").2
    ConfigField.ownerName (by decide)).trans rfl

/-- C10: the configuration record at session start holds exactly the sample
default values of `DEFAULT_CONFIG`. -/
theorem claim_C10_default_config_values :
    sessionInitialConfig.repoName = "copy-spaces-to-youtube-pipeline" ∧
    sessionInitialConfig.ownerName = "aiandbotsgalore" ∧
    sessionInitialConfig.podcastTitle = "My Spaces Archive" ∧
    sessionInitialConfig.podcastDescription = "An automated archive of Twitter Spaces." ∧
    sessionInitialConfig.authorName = "Logan Black" ∧
    sessionInitialConfig.email = "loganblack0@gmail.com" ∧
    sessionInitialConfig.imageUrl = "https://picsum.photos/1400/1400" :=
  ⟨rfl, rfl, rfl, rfl, rfl, rfl, rfl⟩
